import Mathlib

/-!
Verification of the synchronization coordinator of the obsidian-git plugin
(src/main.ts) against its natural-language specification.

The embedding below is a shallow, trace-based translation of the class
ObsidianGit in src/main.ts.  Each workflow run is modelled as a pure
function from an environment (the values returned by the external backend,
vault and configuration during that run) and the coordinator state to the
final coordinator state together with the ordered trace of observable
events (backend calls, displayed messages and errors, state transitions,
file writes).  External collaborators (the git backend and the vault) are
represented by their returned values, following the interface boundary of
the specification.
-/

namespace ObsidianGitSpec

/-- Modelled from the spec: the coordinator state enumeration.  The enum
itself lives in src/types.ts, which is not part of the provided sources;
main.ts uses only the values idle and conflicted, the spec lists
idle, pulling, committing, pushing and conflicted. -/
inductive PluginState where
  | idle
  | pulling
  | committing
  | pushing
  | conflicted
  deriving DecidableEq, Repr

/-- The two concrete backends selected by init: SimpleGit (the native
command line driver, which supports conflict detection) and IsomorphicGit
(the in-process driver).  main.ts dispatches conflict-aware behaviour on
gitManager instanceof SimpleGit. -/
inductive BackendKind where
  | simpleGit
  | isomorphicGit
  deriving DecidableEq, Repr

/-- RepositoryStatus as returned by gitManager.status(): the changed and
conflicted path lists. -/
structure GitStatus where
  changed : List String
  conflicted : List String
  deriving DecidableEq, Repr

/-- Observable events of one workflow run, in order of occurrence:
backend calls, messages and errors shown to the user (displayMessage /
displayError), console logging, state transitions (setState), vault
operations and trigger arming. -/
inductive Event where
  | message : String → Event
  | error : String → Event
  | log : String → Event
  | stateChange : PluginState → Event
  | statusCall : Event
  | pullCall : Event
  | pushCall : Event
  | commitAllCall : Option String → Event
  | branchInfoCall : Event
  | canPushCall : Event
  | vaultDelete : Option String → Event
  | vaultWrite : String → String → Event
  | openFile : String → Event
  | enqueuePullTask : Event
  | armAutoBackup : Event
  | armAutoPull : Event
  deriving DecidableEq, Repr

/-- The settings fields read by the modelled workflows (a subset of
ObsidianGitSettings; the template and display-only fields are not read by
the coordinator logic under verification). -/
structure Settings where
  autoSaveInterval : Nat
  autoPullInterval : Nat
  autoPullOnBoot : Bool
  disablePush : Bool
  pullBeforePush : Bool
  standaloneMode : Bool
  deriving DecidableEq, Repr

/-- The values the git backend returns during one workflow run.  status()
is queried afresh at every call site (the code never caches a status), so
each call site has its own field, named after the line that consumes it. -/
structure GitEnv where
  /-- status() result consumed by the pull workflow after pulling. -/
  statusOnPullCheck : GitStatus
  /-- status() result consumed by the conflict check at the top of
  createBackup (only queried for the SimpleGit backend). -/
  statusOnBackupConflictCheck : GitStatus
  /-- status() result consumed by the changed-files check of
  createBackup. -/
  statusOnBackupChanged : GitStatus
  /-- status() result consumed by the pre-push re-check of createBackup
  (only queried for the SimpleGit backend). -/
  statusOnPrePush : GitStatus
  /-- commitAll() result: number of committed files. -/
  commitResult : Nat
  /-- branchInfo().remote: the upstream branch, absent when no upstream is
  configured. -/
  branchRemote : Option String
  /-- canPush() result. -/
  canPushResult : Bool
  /-- pull() result: number of updated files. -/
  pullResult : Nat
  /-- push() result: number of pushed files. -/
  pushResult : Nat
  deriving Repr

/-- The vault (file tree) as seen by one run, per the interface boundary of
the spec: lookup of the conflict-report file, TFile resolution and link
text for report bullets, and whether a view already displays the report.
Per the interface contract, deleting a path that does not exist fails: in
the source, getAbstractFileByPath returns null for a missing path and
vault.delete is then called on null, which rejects. -/
structure VaultEnv where
  /-- getAbstractFileByPath(conflictOutputFile) returns a file (true) or
  null (false). -/
  conflictFileExists : Bool
  /-- whether a path resolves to a TFile (used by handleConflict). -/
  isTFile : String → Bool
  /-- metadataCache.fileToLinktext for a path that is a TFile. -/
  linktext : String → String
  /-- whether some open view already displays the conflict report file
  (the iterateAllLeaves scan in writeAndOpenFile). -/
  fileAlreadyOpened : Bool

/-- The full external environment of one run. -/
structure Env where
  isMobile : Bool
  /-- checkRequirements() result.  A string, as in the source: the switch
  has a default branch for values outside the four documented ones. -/
  checkResult : String
  git : GitEnv
  vault : VaultEnv

/-- The mutable coordinator fields of the plugin object that the modelled
methods read and write: this.state, this.gitReady and the backend chosen
by init (this.gitManager). -/
structure Coord where
  state : PluginState
  gitReady : Bool
  backend : BackendKind
  deriving Repr

/-- Result of one createBackup run: final coordinator, event trace, and
whether the run completed without an unhandled rejection (ok = false marks
the vault.delete(null) rejection aborting the run). -/
structure RunOut where
  coord : Coord
  trace : List Event
  ok : Bool

/-- this.conflictOutputFile -/
def conflictOutputFile : String := "conflict-files-obsidian-git.md"

/-- An ASCII apostrophe, built by code point to keep the source plain. -/
def squote : String := String.mk [Char.ofNat 39]

def weirdMsg (r : String) : String :=
  "Something weird happened. The " ++ squote ++ "checkRequirements" ++ squote
    ++ " result is " ++ r

def pulledMsgOf (n : Nat) : String :=
  "Pulled new changes. " ++ toString n ++ " files updated"

def upToDateMsg : String := "Everything is up-to-date"

def conflictPullMsg (n : Nat) : String :=
  "You have " ++ toString n ++ " conflict files"

def didNotCommitMsg (n : Nat) : String :=
  "Did not commit, because you have " ++ toString n
    ++ " conflict files. Please resolve them and commit per command."

def committedMsg (n : Nat) : String := "Committed " ++ toString n ++ " files"

def noChangesToCommitMsg : String := "No changes to commit"

def noUpstreamMsg : String :=
  "Did not push. No upstream branch is set! See README for instructions"

def pulledBeforePushMsg (n : Nat) : String :=
  "Pulled " ++ toString n ++ " files from remote"

def cannotPushMsg (n : Nat) : String :=
  "Cannot push. You have " ++ toString n ++ " conflict files"

def pushedMsg (n : Nat) : String :=
  "Pushed " ++ toString n ++ " files to remote"

def noChangesToPushMsg : String := "No changes to push"

/-- One bullet line of the conflict report (handleConflict, lines 264-272):
a wiki link when the path resolves to a TFile, else a plain line. -/
def conflictBullet (v : VaultEnv) (e : String) : String :=
  if v.isTFile e then "- [[" ++ v.linktext e ++ "]]"
  else "- Not a file: " ++ e

/-- The lines of the conflict report: heading, instruction, one bullet per
conflicted path. -/
def conflictReportLines (v : VaultEnv) (conflicted : List String) : List String :=
  ["# Conflict files",
   "Please resolve them and commit per command (This file will be deleted before the commit)."]
  ++ conflicted.map (conflictBullet v)

/-- The conflict report text written by handleConflict via
writeAndOpenFile: the lines joined by newlines. -/
def conflictReportText (v : VaultEnv) (conflicted : List String) : String :=
  String.intercalate "\n" (conflictReportLines v conflicted)

/-- handleConflict (lines 259-275): set state to conflicted, build the
report, write it to the well-known path, and open it unless some view
already displays it. -/
def handleConflict (v : VaultEnv) (conflicted : List String) (c : Coord) :
    Coord × List Event :=
  let c := { c with state := PluginState.conflicted }
  (c, [Event.stateChange PluginState.conflicted,
       Event.vaultWrite conflictOutputFile (conflictReportText v conflicted)]
    ++ (if v.fileAlreadyOpened then [] else [Event.openFile conflictOutputFile]))

/-- init (lines 102-135): select the backend, run checkRequirements and
switch on its result.  The source switch has no break after the
wrong-settings case, so that case displays its error and then falls
through into the valid case (marking the coordinator ready and arming the
periodic triggers); the translation reproduces the fallthrough. -/
def init (s : Settings) (e : Env) (c : Coord) : Coord × List Event :=
  let backend :=
    if s.standaloneMode ∨ e.isMobile then BackendKind.isomorphicGit
    else BackendKind.simpleGit
  let c := { c with backend := backend }
  if e.checkResult = "missing-git" then
    (c, [Event.error "Cannot run git command"])
  else if e.checkResult = "missing-repo" then
    (c, [Event.error "Valid git repository not found"])
  else if e.checkResult = "wrong-settings" ∨ e.checkResult = "valid" then
    let errEvs : List Event :=
      if e.checkResult = "wrong-settings" then
        [Event.error "Not all of the required standalone mode settings are set"]
      else []
    let c := { c with gitReady := true, state := PluginState.idle }
    (c, errEvs ++ [Event.stateChange PluginState.idle]
      ++ (if s.autoPullOnBoot then [Event.enqueuePullTask] else [])
      ++ (if s.autoSaveInterval > 0 then [Event.armAutoBackup] else [])
      ++ (if s.autoPullInterval > 0 then [Event.armAutoPull] else []))
  else
    (c, [Event.log (weirdMsg e.checkResult)])

/-- Body of pullChangesFromRemote after the ready check (lines 145-158):
pull, report the count, then for the SimpleGit backend query status and
report a conflict error if conflicts are present, and finally set state
idle. -/
def pullBody (e : Env) (c : Coord) : Coord × List Event :=
  let t : List Event :=
    [Event.pullCall]
    ++ (if e.git.pullResult > 0 then [Event.message (pulledMsgOf e.git.pullResult)]
        else [Event.message upToDateMsg])
  let t := t
    ++ (if c.backend = BackendKind.simpleGit then
          [Event.statusCall]
          ++ (if e.git.statusOnPullCheck.conflicted.length > 0 then
                [Event.error (conflictPullMsg e.git.statusOnPullCheck.conflicted.length)]
              else [])
        else [])
  ({ c with state := PluginState.idle }, t ++ [Event.stateChange PluginState.idle])

/-- pullChangesFromRemote (lines 137-159): if not ready, re-attempt init
and abort silently when still not ready; otherwise run the body. -/
def pullChangesFromRemote (s : Settings) (e : Env) (c : Coord) :
    Coord × List Event :=
  if c.gitReady then pullBody e c
  else
    let r := init s e c
    if r.1.gitReady then
      let b := pullBody e r.1
      (b.1, r.2 ++ b.2)
    else r

/-- Push phase of createBackup (lines 192-222), entered when push is not
disabled, followed by the final setState(idle) of line 223 on every path
that does not return early.  branchInfo().remote absent aborts with an
error; canPush() false is a reported no-op; otherwise an optional
pull-before-push, then (for SimpleGit) a conflict re-check that either
escalates to handleConflict or pushes. -/
def pushPhase (s : Settings) (e : Env) (c : Coord) (t : List Event) : RunOut :=
  let t := t ++ [Event.branchInfoCall]
  match e.git.branchRemote with
  | none =>
    { coord := { c with state := PluginState.idle },
      trace := t ++ [Event.error noUpstreamMsg, Event.stateChange PluginState.idle],
      ok := true }
  | some _ =>
    let t := t ++ [Event.canPushCall]
    if e.git.canPushResult then
      let t := t
        ++ (if s.pullBeforePush then
              [Event.pullCall]
              ++ (if e.git.pullResult > 0 then
                    [Event.message (pulledBeforePushMsg e.git.pullResult)]
                  else [])
            else [])
      if c.backend = BackendKind.simpleGit then
        let st := e.git.statusOnPrePush
        let t := t ++ [Event.statusCall]
        if st.conflicted.length > 0 then
          let h := handleConflict e.vault st.conflicted c
          { coord := h.1,
            trace := t ++ [Event.error (cannotPushMsg st.conflicted.length)] ++ h.2,
            ok := true }
        else
          { coord := { c with state := PluginState.idle },
            trace := t ++ [Event.pushCall, Event.message (pushedMsg e.git.pushResult),
                           Event.stateChange PluginState.idle],
            ok := true }
      else
        { coord := { c with state := PluginState.idle },
          trace := t ++ [Event.pushCall, Event.message (pushedMsg e.git.pushResult),
                         Event.stateChange PluginState.idle],
          ok := true }
    else
      { coord := { c with state := PluginState.idle },
        trace := t ++ [Event.message noChangesToPushMsg, Event.stateChange PluginState.idle],
        ok := true }

/-- Commit step of createBackup (lines 183-190) followed by the push gate
(line 192): query the changed files, commit when some are present, then
either terminate with state idle (push disabled, line 223) or enter the
push phase. -/
def commitPhase (s : Settings) (e : Env) (msg : Option String) (c : Coord)
    (t : List Event) : RunOut :=
  let changed := e.git.statusOnBackupChanged.changed
  let t := t ++ [Event.statusCall]
  let t :=
    if changed.length ≠ 0 then
      t ++ [Event.commitAllCall msg, Event.message (committedMsg e.git.commitResult)]
    else
      t ++ [Event.message noChangesToCommitMsg]
  if s.disablePush then
    { coord := { c with state := PluginState.idle },
      trace := t ++ [Event.stateChange PluginState.idle], ok := true }
  else pushPhase s e c t

/-- Conflict gate of createBackup (lines 172-181): for the SimpleGit
backend, query status; when triggered automatically and conflicts are
present, set state idle, display the error, escalate to handleConflict and
return without committing; otherwise continue into the commit phase. -/
def conflictGate (s : Settings) (e : Env) (fromAutoBackup : Bool)
    (msg : Option String) (c : Coord) (t : List Event) : RunOut :=
  if c.backend = BackendKind.simpleGit then
    let st := e.git.statusOnBackupConflictCheck
    let t := t ++ [Event.statusCall]
    if fromAutoBackup ∧ st.conflicted.length > 0 then
      let c1 := { c with state := PluginState.idle }
      let h := handleConflict e.vault st.conflicted c1
      { coord := h.1,
        trace := t ++ [Event.stateChange PluginState.idle,
                       Event.error (didNotCommitMsg st.conflicted.length)] ++ h.2,
        ok := true }
    else commitPhase s e msg c t
  else commitPhase s e msg c t

/-- Body of createBackup after the ready check (lines 167-224).  On a
manual run the stale conflict report is deleted first: when the file does
not exist, getAbstractFileByPath returns null and the awaited
vault.delete(null) rejects, so the run aborts with an unhandled rejection
(ok = false) before any status query. -/
def createBackupBody (s : Settings) (e : Env) (fromAutoBackup : Bool)
    (msg : Option String) (c : Coord) : RunOut :=
  if fromAutoBackup then conflictGate s e fromAutoBackup msg c []
  else if e.vault.conflictFileExists then
    conflictGate s e fromAutoBackup msg c [Event.vaultDelete (some conflictOutputFile)]
  else
    { coord := c, trace := [Event.vaultDelete none], ok := false }

/-- createBackup (lines 161-224): if not ready, re-attempt init and abort
silently when still not ready; otherwise run the body. -/
def createBackup (s : Settings) (e : Env) (fromAutoBackup : Bool)
    (msg : Option String) (c : Coord) : RunOut :=
  if c.gitReady then createBackupBody s e fromAutoBackup msg c
  else
    let r := init s e c
    if r.1.gitReady then
      let b := createBackupBody s e fromAutoBackup msg r.1
      { b with trace := r.2 ++ b.trace }
    else { coord := r.1, trace := r.2, ok := true }

/-- Whether a run of createBackup passes the steps before the changed-files
check: the stale-report deletion succeeds on manual runs (the file exists),
and the automatic-run conflict gate does not fire. -/
def reachesCommitPhase (e : Env) (fromAutoBackup : Bool) (c : Coord) : Prop :=
  (fromAutoBackup = false → e.vault.conflictFileExists = true)
  ∧ (fromAutoBackup = true → c.backend = BackendKind.simpleGit →
      e.git.statusOnBackupConflictCheck.conflicted = [])

instance (e : Env) (b : Bool) (c : Coord) : Decidable (reachesCommitPhase e b c) := by
  unfold reachesCommitPhase; infer_instance

/-- A sample vault for concrete witnesses. -/
def sampleVault : VaultEnv :=
  { conflictFileExists := true
    isTFile := fun _ => true
    linktext := fun p => p
    fileAlreadyOpened := false }

/-- A sample backend environment for concrete witnesses: a clean repository
with an upstream and one unpushed commit. -/
def sampleGit : GitEnv :=
  { statusOnPullCheck := { changed := [], conflicted := [] }
    statusOnBackupConflictCheck := { changed := [], conflicted := [] }
    statusOnBackupChanged := { changed := [], conflicted := [] }
    statusOnPrePush := { changed := [], conflicted := [] }
    commitResult := 1
    branchRemote := some "origin/master"
    canPushResult := true
    pullResult := 0
    pushResult := 1 }

/-- The default settings of the source (DEFAULT_SETTINGS), restricted to
the fields the coordinator reads. -/
def sampleSettings : Settings :=
  { autoSaveInterval := 0
    autoPullInterval := 0
    autoPullOnBoot := false
    disablePush := false
    pullBeforePush := true
    standaloneMode := false }

def sampleEnv : Env :=
  { isMobile := false
    checkResult := "valid"
    git := sampleGit
    vault := sampleVault }

/-- A coordinator that has completed a successful init with the SimpleGit
backend. -/
def readyCoord : Coord :=
  { state := PluginState.idle, gitReady := true, backend := BackendKind.simpleGit }

/-- A coordinator before init. -/
def initialCoord : Coord :=
  { state := PluginState.idle, gitReady := false, backend := BackendKind.simpleGit }

/-- Settings with the auto-backup interval armed. -/
def settingsAutoSave : Settings := { sampleSettings with autoSaveInterval := 5 }

/-- An environment whose readiness check yields wrong-settings. -/
def envWrongSettings : Env := { sampleEnv with checkResult := "wrong-settings" }

/-- An environment whose readiness check yields a value outside the four
documented ones. -/
def envUnknownResult : Env := { sampleEnv with checkResult := "banana" }

/-- An environment with two conflicted files at the backup conflict
check. -/
def envAutoConflict : Env :=
  { sampleEnv with git := { sampleGit with
      statusOnBackupConflictCheck := { changed := ["b.md"], conflicted := ["b.md", "c.md"] } } }

/-- An environment for a manual backup: changed files and conflicts are
present at commit time, and the pre-push re-check still reports a
conflict. -/
def envManualConflict : Env :=
  { sampleEnv with git := { sampleGit with
      statusOnBackupConflictCheck := { changed := ["a.md"], conflicted := ["x.md"] }
      statusOnBackupChanged := { changed := ["a.md"], conflicted := ["x.md"] }
      statusOnPrePush := { changed := [], conflicted := ["y.md"] }
      pullResult := 2 } }

/-- An environment with no upstream branch configured. -/
def envNoUpstream : Env :=
  { sampleEnv with git := { sampleGit with branchRemote := none } }

/-- An environment with no unpushed commits. -/
def envNothingToPush : Env :=
  { sampleEnv with git := { sampleGit with canPushResult := false } }

/-- An environment in which the conflict-report file does not exist in the
vault. -/
def envMissingReportFile : Env :=
  { sampleEnv with vault := { sampleVault with conflictFileExists := false } }

/-- An environment whose post-pull status reports one conflicted file. -/
def envPullConflict : Env :=
  { sampleEnv with git := { sampleGit with
      statusOnPullCheck := { changed := [], conflicted := ["c1.md"] } } }

/-! ## Helper lemmas -/

theorem pulledMsgOf_ne_upToDateMsg (n : Nat) : pulledMsgOf n ≠ upToDateMsg := by
  intro h
  have h2 := congrArg String.length h
  have e0 : ("Pulled new changes. " : String).length = 20 := rfl
  have e1 : (" files updated" : String).length = 14 := rfl
  have e2 : ("Everything is up-to-date" : String).length = 24 := rfl
  simp [pulledMsgOf, upToDateMsg, String.length_append, e0, e1, e2] at h2
  omega

theorem init_no_message (s : Settings) (e : Env) (c : Coord) (m : String) :
    Event.message m ∉ (init s e c).2 := by
  unfold init
  split_ifs <;> simp

theorem init_no_pullCall (s : Settings) (e : Env) (c : Coord) :
    Event.pullCall ∉ (init s e c).2 := by
  unfold init
  split_ifs <;> simp

theorem mem_message_pullBody (e : Env) (c : Coord) (m : String) :
    Event.message m ∈ (pullBody e c).2 ↔
      ((0 < e.git.pullResult ∧ m = pulledMsgOf e.git.pullResult)
        ∨ (e.git.pullResult = 0 ∧ m = upToDateMsg)) := by
  unfold pullBody
  split_ifs <;> simp_all <;> omega

theorem pushPhase_no_commit (s : Settings) (e : Env) (c : Coord) (t : List Event)
    (m : Option String) (h : Event.commitAllCall m ∉ t) :
    Event.commitAllCall m ∉ (pushPhase s e c t).trace := by
  unfold pushPhase handleConflict
  cases e.git.branchRemote <;>
    (try split_ifs) <;> (try simp_all) <;> (try split_ifs) <;> (try simp_all)

theorem pushPhase_branchInfo_mem (s : Settings) (e : Env) (c : Coord) (t : List Event) :
    Event.branchInfoCall ∈ (pushPhase s e c t).trace := by
  unfold pushPhase handleConflict
  cases e.git.branchRemote <;>
    (try split_ifs) <;> (try simp_all) <;> (try split_ifs) <;> (try simp_all)

theorem pushPhase_mem_of_mem (s : Settings) (e : Env) (c : Coord) (t : List Event)
    (ev : Event) (h : ev ∈ t) : ev ∈ (pushPhase s e c t).trace := by
  unfold pushPhase handleConflict
  cases e.git.branchRemote <;>
    (try split_ifs) <;> (try simp_all) <;> (try split_ifs) <;> (try simp_all)

theorem commitPhase_no_changes (s : Settings) (e : Env) (msg : Option String)
    (c : Coord) (t : List Event)
    (hch : e.git.statusOnBackupChanged.changed.length = 0)
    (ht : ∀ m, Event.commitAllCall m ∉ t) :
    (∀ m, Event.commitAllCall m ∉ (commitPhase s e msg c t).trace)
    ∧ Event.message noChangesToCommitMsg ∈ (commitPhase s e msg c t).trace
    ∧ (s.disablePush = false →
        Event.branchInfoCall ∈ (commitPhase s e msg c t).trace) := by
  unfold commitPhase
  simp [hch]
  by_cases hdp : s.disablePush
  · simp [hdp]
    intro m
    exact ht m
  · simp [hdp]
    refine ⟨?_, ?_⟩
    · intro m
      apply pushPhase_no_commit
      simp [ht m]
    · exact ⟨pushPhase_mem_of_mem _ _ _ _ _ (by simp), pushPhase_branchInfo_mem s e c _⟩

theorem commitPhase_no_upstream (s : Settings) (e : Env) (msg : Option String)
    (c : Coord) (t : List Event)
    (hdp : s.disablePush = false) (hrm : e.git.branchRemote = none)
    (ht : Event.pushCall ∉ t) :
    Event.error noUpstreamMsg ∈ (commitPhase s e msg c t).trace
    ∧ Event.pushCall ∉ (commitPhase s e msg c t).trace
    ∧ (commitPhase s e msg c t).coord.state = PluginState.idle
    ∧ (commitPhase s e msg c t).ok = true := by
  unfold commitPhase pushPhase
  simp [hdp, hrm]
  split_ifs <;> simp_all

theorem commitPhase_push_gate (s : Settings) (e : Env) (msg : Option String)
    (c : Coord) (t : List Event) (r : String)
    (hdp : s.disablePush = false) (hrm : e.git.branchRemote = some r)
    (htpush : Event.pushCall ∉ t) (htpull : Event.pullCall ∉ t) :
    (e.git.canPushResult = false →
      Event.pushCall ∉ (commitPhase s e msg c t).trace
      ∧ Event.pullCall ∉ (commitPhase s e msg c t).trace
      ∧ Event.message noChangesToPushMsg ∈ (commitPhase s e msg c t).trace)
    ∧ (Event.pushCall ∈ (commitPhase s e msg c t).trace →
      e.git.canPushResult = true) := by
  unfold commitPhase pushPhase
  simp [hdp, hrm]
  by_cases hcp : e.git.canPushResult
  · simp [hcp]
  · simp [hcp] at hcp ⊢
    split_ifs <;> simp_all

theorem createBackup_reaches_commitPhase (s : Settings) (e : Env) (b : Bool)
    (msg : Option String) (c : Coord)
    (hg : c.gitReady = true) (hpass : reachesCommitPhase e b c) :
    ∃ t, createBackup s e b msg c = commitPhase s e msg c t
      ∧ ∀ ev ∈ t, ev = Event.vaultDelete (some conflictOutputFile) ∨ ev = Event.statusCall := by
  obtain ⟨hp1, hp2⟩ := hpass
  cases b
  · have hfe := hp1 rfl
    by_cases hb : c.backend = BackendKind.simpleGit
    · refine ⟨[Event.vaultDelete (some conflictOutputFile), Event.statusCall], ?_, ?_⟩
      · unfold createBackup createBackupBody conflictGate
        simp [hg, hfe, hb]
      · intro ev hev
        simpa using hev
    · refine ⟨[Event.vaultDelete (some conflictOutputFile)], ?_, ?_⟩
      · unfold createBackup createBackupBody conflictGate
        simp [hg, hfe, hb]
      · intro ev hev
        simp at hev
        exact Or.inl hev
  · by_cases hb : c.backend = BackendKind.simpleGit
    · have hcf := hp2 rfl hb
      refine ⟨[Event.statusCall], ?_, ?_⟩
      · unfold createBackup createBackupBody conflictGate
        simp [hg, hb, hcf]
      · intro ev hev
        simp at hev
        exact Or.inr hev
    · refine ⟨[], ?_, ?_⟩
      · unfold createBackup createBackupBody conflictGate
        simp [hg, hb]
      · intro ev hev
        simp at hev

/-! ## Claim theorems -/

/-- Claim C1 (evidence for the code bug): when checkRequirements yields
wrong-settings, init displays the error but then, through the missing
break in the readiness switch, falls into the valid case: gitReady becomes
true, the state is set to idle and the auto-backup trigger is armed — the
coordinator does not stay not-ready as the claim requires. -/
theorem init_wrong_settings_marks_ready :
    (init settingsAutoSave envWrongSettings initialCoord).1.gitReady = true
    ∧ (init settingsAutoSave envWrongSettings initialCoord).1.state = PluginState.idle
    ∧ Event.armAutoBackup ∈ (init settingsAutoSave envWrongSettings initialCoord).2
    ∧ Event.error "Not all of the required standalone mode settings are set"
        ∈ (init settingsAutoSave envWrongSettings initialCoord).2 := by
  decide

/-- Claim C10: for a checkRequirements result outside the four documented
values, init only writes the console log line: gitReady stays false, no
error is displayed, the coordinator state is unchanged and no periodic
trigger is armed. -/
theorem init_unknown_result_only_logs (s : Settings) (e : Env) (c : Coord)
    (hg : c.gitReady = false)
    (h1 : e.checkResult ≠ "valid") (h2 : e.checkResult ≠ "missing-git")
    (h3 : e.checkResult ≠ "missing-repo") (h4 : e.checkResult ≠ "wrong-settings") :
    (init s e c).2 = [Event.log (weirdMsg e.checkResult)]
    ∧ (init s e c).1.gitReady = false
    ∧ (init s e c).1.state = c.state
    ∧ (∀ m, Event.error m ∉ (init s e c).2)
    ∧ Event.armAutoBackup ∉ (init s e c).2
    ∧ Event.armAutoPull ∉ (init s e c).2 := by
  unfold init
  simp [h1, h2, h3, h4, hg]

/-- Witness for C10 at the concrete result banana. -/
theorem init_unknown_result_only_logs_witness :
    (initialCoord.gitReady = false ∧ envUnknownResult.checkResult ≠ "valid")
    ∧ ((init sampleSettings envUnknownResult initialCoord).2
          = [Event.log (weirdMsg "banana")]
        ∧ (init sampleSettings envUnknownResult initialCoord).1.gitReady = false
        ∧ (init sampleSettings envUnknownResult initialCoord).1.state = initialCoord.state
        ∧ (∀ m, Event.error m ∉ (init sampleSettings envUnknownResult initialCoord).2)
        ∧ Event.armAutoBackup ∉ (init sampleSettings envUnknownResult initialCoord).2
        ∧ Event.armAutoPull ∉ (init sampleSettings envUnknownResult initialCoord).2) :=
  ⟨⟨rfl, by decide⟩,
    init_unknown_result_only_logs sampleSettings envUnknownResult initialCoord rfl
      (by decide) (by decide) (by decide) (by decide)⟩

/-- Claim C4: a pull workflow run whose backend pull reports 0 updated
files emits the up-to-date message and never a pulled-N-files message; a
run whose pull reports more than 0 emits the pulled message with exactly
that count. -/
theorem pull_reports_exact_count (s : Settings) (e : Env) (c : Coord)
    (hcall : Event.pullCall ∈ (pullChangesFromRemote s e c).2) :
    (e.git.pullResult = 0 →
      Event.message upToDateMsg ∈ (pullChangesFromRemote s e c).2
      ∧ ∀ n, Event.message (pulledMsgOf n) ∉ (pullChangesFromRemote s e c).2)
    ∧ (0 < e.git.pullResult →
      Event.message (pulledMsgOf e.git.pullResult) ∈ (pullChangesFromRemote s e c).2) := by
  by_cases hg : c.gitReady = true
  · have hr : pullChangesFromRemote s e c = pullBody e c := by
      unfold pullChangesFromRemote; simp [hg]
    rw [hr]
    constructor
    · intro h0
      constructor
      · rw [mem_message_pullBody]; exact Or.inr ⟨h0, rfl⟩
      · intro n hmem
        rcases (mem_message_pullBody e c (pulledMsgOf n)).mp hmem with ⟨hp, _⟩ | ⟨_, hp⟩
        · omega
        · exact pulledMsgOf_ne_upToDateMsg n hp
    · intro hp
      rw [mem_message_pullBody]; exact Or.inl ⟨hp, rfl⟩
  · have hg' : c.gitReady = false := by simpa using hg
    by_cases h1 : (init s e c).1.gitReady = true
    · have hr : (pullChangesFromRemote s e c).2 = (init s e c).2 ++ (pullBody e (init s e c).1).2 := by
        unfold pullChangesFromRemote; simp [hg', h1]
      rw [hr]
      constructor
      · intro h0
        constructor
        · exact List.mem_append_right _ ((mem_message_pullBody e _ _).mpr (Or.inr ⟨h0, rfl⟩))
        · intro n hmem
          rcases List.mem_append.mp hmem with hmem | hmem
          · exact init_no_message s e c _ hmem
          · rcases (mem_message_pullBody e _ (pulledMsgOf n)).mp hmem with ⟨hp, _⟩ | ⟨_, hp⟩
            · omega
            · exact pulledMsgOf_ne_upToDateMsg n hp
      · intro hp
        exact List.mem_append_right _ ((mem_message_pullBody e _ _).mpr (Or.inl ⟨hp, rfl⟩))
    · have h1' : (init s e c).1.gitReady = false := by simpa using h1
      have hr : (pullChangesFromRemote s e c).2 = (init s e c).2 := by
        unfold pullChangesFromRemote; simp [hg', h1']
      rw [hr] at hcall
      exact absurd hcall (init_no_pullCall s e c)

/-- Witness for C4: ready coordinator, pull reports 0 files. -/
theorem pull_reports_exact_count_witness :
    (Event.pullCall ∈ (pullChangesFromRemote sampleSettings sampleEnv readyCoord).2)
    ∧ ((sampleEnv.git.pullResult = 0 →
        Event.message upToDateMsg ∈ (pullChangesFromRemote sampleSettings sampleEnv readyCoord).2
        ∧ ∀ n, Event.message (pulledMsgOf n) ∉ (pullChangesFromRemote sampleSettings sampleEnv readyCoord).2)
      ∧ (0 < sampleEnv.git.pullResult →
        Event.message (pulledMsgOf sampleEnv.git.pullResult)
          ∈ (pullChangesFromRemote sampleSettings sampleEnv readyCoord).2)) :=
  ⟨by decide, pull_reports_exact_count sampleSettings sampleEnv readyCoord (by decide)⟩

/-- Claim C9: a pull workflow run on the SimpleGit backend whose post-pull
status has conflicts reports the conflict-count error, writes no conflict
report, never enters the conflicted state, and ends with state idle. -/
theorem pull_conflicts_error_without_report (s : Settings) (e : Env) (c : Coord)
    (hg : c.gitReady = true) (hb : c.backend = BackendKind.simpleGit)
    (hc : 0 < e.git.statusOnPullCheck.conflicted.length) :
    Event.error (conflictPullMsg e.git.statusOnPullCheck.conflicted.length)
        ∈ (pullChangesFromRemote s e c).2
    ∧ (∀ p txt, Event.vaultWrite p txt ∉ (pullChangesFromRemote s e c).2)
    ∧ Event.stateChange PluginState.conflicted ∉ (pullChangesFromRemote s e c).2
    ∧ (pullChangesFromRemote s e c).1.state = PluginState.idle := by
  have hr : pullChangesFromRemote s e c = pullBody e c := by
    unfold pullChangesFromRemote; simp [hg]
  rw [hr]
  unfold pullBody
  split_ifs <;> simp_all

/-- Witness for C9: one conflicted file after pull. -/
theorem pull_conflicts_error_without_report_witness :
    (readyCoord.gitReady = true ∧ readyCoord.backend = BackendKind.simpleGit
      ∧ 0 < envPullConflict.git.statusOnPullCheck.conflicted.length)
    ∧ (Event.error (conflictPullMsg envPullConflict.git.statusOnPullCheck.conflicted.length)
          ∈ (pullChangesFromRemote sampleSettings envPullConflict readyCoord).2
        ∧ (∀ p txt, Event.vaultWrite p txt
            ∉ (pullChangesFromRemote sampleSettings envPullConflict readyCoord).2)
        ∧ Event.stateChange PluginState.conflicted
            ∉ (pullChangesFromRemote sampleSettings envPullConflict readyCoord).2
        ∧ (pullChangesFromRemote sampleSettings envPullConflict readyCoord).1.state
            = PluginState.idle) :=
  ⟨⟨rfl, rfl, by decide⟩,
    pull_conflicts_error_without_report sampleSettings envPullConflict readyCoord rfl rfl
      (by decide)⟩

/-- Claim C2: an automatically triggered createBackup on the SimpleGit
backend whose conflict check reports a non-empty conflicted list never
calls commitAll, ends in the conflicted state, and writes a conflict
report whose lines after the two header lines are exactly one bullet per
conflicted path. -/
theorem auto_backup_conflict_skips_commit (s : Settings) (e : Env)
    (msg : Option String) (c : Coord)
    (hg : c.gitReady = true) (hb : c.backend = BackendKind.simpleGit)
    (hc : 0 < e.git.statusOnBackupConflictCheck.conflicted.length) :
    (∀ m, Event.commitAllCall m ∉ (createBackup s e true msg c).trace)
    ∧ (createBackup s e true msg c).coord.state = PluginState.conflicted
    ∧ Event.vaultWrite conflictOutputFile
        (conflictReportText e.vault e.git.statusOnBackupConflictCheck.conflicted)
        ∈ (createBackup s e true msg c).trace
    ∧ (conflictReportLines e.vault e.git.statusOnBackupConflictCheck.conflicted).drop 2
        = e.git.statusOnBackupConflictCheck.conflicted.map (conflictBullet e.vault) := by
  unfold createBackup createBackupBody conflictGate handleConflict
  simp [hg, hb, hc, conflictReportLines]

/-- Witness for C2: two conflicted files on an automatic backup. -/
theorem auto_backup_conflict_skips_commit_witness :
    (readyCoord.gitReady = true ∧ readyCoord.backend = BackendKind.simpleGit
      ∧ 0 < envAutoConflict.git.statusOnBackupConflictCheck.conflicted.length)
    ∧ ((∀ m, Event.commitAllCall m ∉ (createBackup sampleSettings envAutoConflict true none readyCoord).trace)
      ∧ (createBackup sampleSettings envAutoConflict true none readyCoord).coord.state
          = PluginState.conflicted
      ∧ Event.vaultWrite conflictOutputFile
          (conflictReportText envAutoConflict.vault
            envAutoConflict.git.statusOnBackupConflictCheck.conflicted)
          ∈ (createBackup sampleSettings envAutoConflict true none readyCoord).trace
      ∧ (conflictReportLines envAutoConflict.vault
            envAutoConflict.git.statusOnBackupConflictCheck.conflicted).drop 2
          = envAutoConflict.git.statusOnBackupConflictCheck.conflicted.map
              (conflictBullet envAutoConflict.vault)) :=
  ⟨⟨rfl, rfl, by decide⟩,
    auto_backup_conflict_skips_commit sampleSettings envAutoConflict none readyCoord rfl rfl
      (by decide)⟩

/-- Claim C3: a manually triggered createBackup with changed files commits
even though the conflict check reports conflicts; when the pre-push
re-check still reports conflicts, it reports the cannot-push error,
escalates to the Conflict Reporter, and never calls push. -/
theorem manual_backup_commits_but_blocks_push_on_conflict
    (s : Settings) (e : Env) (msg : Option String) (c : Coord) (r : String)
    (hg : c.gitReady = true) (hb : c.backend = BackendKind.simpleGit)
    (hfile : e.vault.conflictFileExists = true)
    (hch : e.git.statusOnBackupChanged.changed.length ≠ 0)
    (hconf1 : 0 < e.git.statusOnBackupConflictCheck.conflicted.length)
    (hdp : s.disablePush = false)
    (hrem : e.git.branchRemote = some r)
    (hcp : e.git.canPushResult = true)
    (hpbp : s.pullBeforePush = true)
    (hconf2 : 0 < e.git.statusOnPrePush.conflicted.length) :
    Event.commitAllCall msg ∈ (createBackup s e false msg c).trace
    ∧ Event.pushCall ∉ (createBackup s e false msg c).trace
    ∧ Event.error (cannotPushMsg e.git.statusOnPrePush.conflicted.length)
        ∈ (createBackup s e false msg c).trace
    ∧ Event.vaultWrite conflictOutputFile
        (conflictReportText e.vault e.git.statusOnPrePush.conflicted)
        ∈ (createBackup s e false msg c).trace
    ∧ (createBackup s e false msg c).coord.state = PluginState.conflicted := by
  unfold createBackup createBackupBody conflictGate commitPhase pushPhase handleConflict
  simp [hg, hb, hfile, hch, hconf1, hdp, hrem, hcp, hpbp, hconf2]

/-- Witness for C3: changed file a.md, conflict x.md at commit time,
conflict y.md after the pre-push pull. -/
theorem manual_backup_commits_but_blocks_push_on_conflict_witness :
    (readyCoord.gitReady = true ∧ readyCoord.backend = BackendKind.simpleGit
      ∧ envManualConflict.vault.conflictFileExists = true
      ∧ envManualConflict.git.statusOnBackupChanged.changed.length ≠ 0
      ∧ 0 < envManualConflict.git.statusOnBackupConflictCheck.conflicted.length
      ∧ sampleSettings.disablePush = false
      ∧ envManualConflict.git.branchRemote = some "origin/master"
      ∧ envManualConflict.git.canPushResult = true
      ∧ sampleSettings.pullBeforePush = true
      ∧ 0 < envManualConflict.git.statusOnPrePush.conflicted.length)
    ∧ (Event.commitAllCall none
          ∈ (createBackup sampleSettings envManualConflict false none readyCoord).trace
      ∧ Event.pushCall ∉ (createBackup sampleSettings envManualConflict false none readyCoord).trace
      ∧ Event.error (cannotPushMsg envManualConflict.git.statusOnPrePush.conflicted.length)
          ∈ (createBackup sampleSettings envManualConflict false none readyCoord).trace
      ∧ Event.vaultWrite conflictOutputFile
          (conflictReportText envManualConflict.vault
            envManualConflict.git.statusOnPrePush.conflicted)
          ∈ (createBackup sampleSettings envManualConflict false none readyCoord).trace
      ∧ (createBackup sampleSettings envManualConflict false none readyCoord).coord.state
          = PluginState.conflicted) :=
  ⟨⟨rfl, rfl, rfl, by decide, by decide, rfl, rfl, rfl, rfl, by decide⟩,
    manual_backup_commits_but_blocks_push_on_conflict sampleSettings envManualConflict none
      readyCoord "origin/master" rfl rfl rfl (by decide) (by decide) rfl rfl rfl rfl (by decide)⟩

/-- Claim C5: a createBackup run whose changed-files status is empty never
calls commitAll, emits the no-changes-to-commit message, and still reaches
the push phase (the branchInfo call) when push is not disabled. -/
theorem backup_no_changes_skips_commit (s : Settings) (e : Env) (b : Bool)
    (msg : Option String) (c : Coord)
    (hg : c.gitReady = true)
    (hpass : reachesCommitPhase e b c)
    (hch : e.git.statusOnBackupChanged.changed.length = 0) :
    (∀ m, Event.commitAllCall m ∉ (createBackup s e b msg c).trace)
    ∧ Event.message noChangesToCommitMsg ∈ (createBackup s e b msg c).trace
    ∧ (s.disablePush = false →
        Event.branchInfoCall ∈ (createBackup s e b msg c).trace) := by
  obtain ⟨t, heq, hels⟩ := createBackup_reaches_commitPhase s e b msg c hg hpass
  rw [heq]
  refine commitPhase_no_changes s e msg c t hch ?_
  intro m hm
  rcases hels _ hm with h | h <;> simp at h

/-- Witness for C5: manual backup, clean status, push enabled. -/
theorem backup_no_changes_skips_commit_witness :
    (readyCoord.gitReady = true ∧ reachesCommitPhase sampleEnv false readyCoord
      ∧ sampleEnv.git.statusOnBackupChanged.changed.length = 0)
    ∧ ((∀ m, Event.commitAllCall m ∉ (createBackup sampleSettings sampleEnv false none readyCoord).trace)
      ∧ Event.message noChangesToCommitMsg
          ∈ (createBackup sampleSettings sampleEnv false none readyCoord).trace
      ∧ (sampleSettings.disablePush = false →
          Event.branchInfoCall ∈ (createBackup sampleSettings sampleEnv false none readyCoord).trace)) :=
  ⟨⟨rfl, by decide, by decide⟩,
    backup_no_changes_skips_commit sampleSettings sampleEnv false none readyCoord rfl
      (by decide) (by decide)⟩

/-- Claim C6: a createBackup run with push enabled whose branchInfo reports
no remote emits the no-upstream error, never calls push, and terminates
normally with state idle. -/
theorem backup_no_upstream_aborts_push (s : Settings) (e : Env) (b : Bool)
    (msg : Option String) (c : Coord)
    (hg : c.gitReady = true)
    (hpass : reachesCommitPhase e b c)
    (hdp : s.disablePush = false)
    (hrm : e.git.branchRemote = none) :
    Event.error noUpstreamMsg ∈ (createBackup s e b msg c).trace
    ∧ Event.pushCall ∉ (createBackup s e b msg c).trace
    ∧ (createBackup s e b msg c).coord.state = PluginState.idle
    ∧ (createBackup s e b msg c).ok = true := by
  obtain ⟨t, heq, hels⟩ := createBackup_reaches_commitPhase s e b msg c hg hpass
  rw [heq]
  refine commitPhase_no_upstream s e msg c t hdp hrm ?_
  intro hm
  rcases hels _ hm with h | h <;> simp at h

/-- Witness for C6: manual backup with no upstream configured. -/
theorem backup_no_upstream_aborts_push_witness :
    (readyCoord.gitReady = true ∧ reachesCommitPhase envNoUpstream false readyCoord
      ∧ sampleSettings.disablePush = false ∧ envNoUpstream.git.branchRemote = none)
    ∧ (Event.error noUpstreamMsg
          ∈ (createBackup sampleSettings envNoUpstream false none readyCoord).trace
      ∧ Event.pushCall ∉ (createBackup sampleSettings envNoUpstream false none readyCoord).trace
      ∧ (createBackup sampleSettings envNoUpstream false none readyCoord).coord.state
          = PluginState.idle
      ∧ (createBackup sampleSettings envNoUpstream false none readyCoord).ok = true) :=
  ⟨⟨rfl, by decide, rfl, rfl⟩,
    backup_no_upstream_aborts_push sampleSettings envNoUpstream false none readyCoord rfl
      (by decide) rfl rfl⟩

/-- Claim C7: in a createBackup run that reaches the push phase with an
upstream configured, push happens only when canPush() is true; when
canPush() is false, neither pull nor push occur and the
no-changes-to-push message is emitted. -/
theorem push_only_when_canPush (s : Settings) (e : Env) (b : Bool)
    (msg : Option String) (c : Coord) (r : String)
    (hg : c.gitReady = true)
    (hpass : reachesCommitPhase e b c)
    (hdp : s.disablePush = false)
    (hrm : e.git.branchRemote = some r) :
    (e.git.canPushResult = false →
      Event.pushCall ∉ (createBackup s e b msg c).trace
      ∧ Event.pullCall ∉ (createBackup s e b msg c).trace
      ∧ Event.message noChangesToPushMsg ∈ (createBackup s e b msg c).trace)
    ∧ (Event.pushCall ∈ (createBackup s e b msg c).trace →
      e.git.canPushResult = true) := by
  obtain ⟨t, heq, hels⟩ := createBackup_reaches_commitPhase s e b msg c hg hpass
  rw [heq]
  refine commitPhase_push_gate s e msg c t r hdp hrm ?_ ?_ <;>
    (intro hm; rcases hels _ hm with h | h <;> simp at h)

/-- Witness for C7: upstream set, no unpushed commits. -/
theorem push_only_when_canPush_witness :
    (readyCoord.gitReady = true ∧ reachesCommitPhase envNothingToPush false readyCoord
      ∧ sampleSettings.disablePush = false
      ∧ envNothingToPush.git.branchRemote = some "origin/master")
    ∧ ((envNothingToPush.git.canPushResult = false →
        Event.pushCall ∉ (createBackup sampleSettings envNothingToPush false none readyCoord).trace
        ∧ Event.pullCall ∉ (createBackup sampleSettings envNothingToPush false none readyCoord).trace
        ∧ Event.message noChangesToPushMsg
            ∈ (createBackup sampleSettings envNothingToPush false none readyCoord).trace)
      ∧ (Event.pushCall ∈ (createBackup sampleSettings envNothingToPush false none readyCoord).trace →
        envNothingToPush.git.canPushResult = true)) :=
  ⟨⟨rfl, by decide, rfl, rfl⟩,
    push_only_when_canPush sampleSettings envNothingToPush false none readyCoord
      "origin/master" rfl (by decide) rfl rfl⟩

/-- Claim C8 (evidence for the code bug): on a manual createBackup with no
conflict-report file in the vault, getAbstractFileByPath returns null and
the awaited vault.delete(null) rejects, so the run aborts before any
status query or commit — it does not continue to the status/commit steps
as the claim requires. -/
theorem manual_backup_missing_conflict_file_aborts :
    (createBackup sampleSettings envMissingReportFile false none readyCoord).ok = false
    ∧ (createBackup sampleSettings envMissingReportFile false none readyCoord).trace
        = [Event.vaultDelete none]
    ∧ Event.statusCall ∉ (createBackup sampleSettings envMissingReportFile false none readyCoord).trace
    ∧ (∀ m, Event.commitAllCall m ∉ (createBackup sampleSettings envMissingReportFile false none readyCoord).trace)
    ∧ (∀ m, Event.message m ∉ (createBackup sampleSettings envMissingReportFile false none readyCoord).trace) := by
  have ht : (createBackup sampleSettings envMissingReportFile false none readyCoord).trace
      = [Event.vaultDelete none] := by decide
  refine ⟨by decide, ht, ?_, ?_, ?_⟩
  · rw [ht]; simp
  · intro m; rw [ht]; simp
  · intro m; rw [ht]; simp

end ObsidianGitSpec
